import Mathlib

/-!
# pgmgr: a shallow embedding of `pgmgr/pgmgr.go`

The package is a thin layer over three external collaborators: the process
runner (`os/exec`), the directory listing (`io/ioutil`, `path/filepath`,
`regexp`) and the database connection (`database/sql` with the `pq` driver).
Each Go function of the package is embedded as a Lean function of the same
name.  The collaborators are made explicit:

* `Env` carries the answers of the operating system: the directory listing,
  `filepath.Join`, the outcome of every subprocess, and `sql.Open`;
* `Shell` is the state threaded through `sh`: the commands invoked so far and
  the text printed so far;
* `Database` is the state of the server seen through an opened connection.

A Go `error` is `Option Error`, `nil` being `none`.
-/

namespace Pgmgr

/-! ## Data model -/

/-- A Go `error` value that is not `nil`, identified by its message. -/
abbrev Error := String

/-- The struct `Config` (pgmgr.go, lines 13-24). -/
structure Config where
  Username : String
  Password : String
  Database : String
  Host : String
  Port : Int
  DumpFile : String
  MigrationFolder : String
  deriving DecidableEq, Repr

/-- One invocation of the process runner: `exec.Command(command, args...)`. -/
structure Call where
  command : String
  args : List String
  deriving DecidableEq, Repr

/-- The state threaded through the process runner: every command invoked so
far, oldest first, and every text printed so far. -/
structure Shell where
  calls : List Call
  stdout : List String
  deriving DecidableEq, Repr

/-- The answers of the operating system.
* `ReadDir dir` is `ioutil.ReadDir(dir)`: the listing error, or the names of
  the entries in listing order;
* `Join` is `filepath.Join` on two elements;
* `exec earlier call` is `exec.Command(..).CombinedOutput()`: the combined
  output and the exit error of `call` when `earlier` are the commands that
  ran before it;
* `Open conn` is the error of `sql.Open("postgres", conn)`. -/
structure Env where
  ReadDir : String → Except Error (List String)
  Join : String → String → String
  exec : List Call → Call → String × Option Error
  Open : String → Option Error

/-! ## The process runner -/

/-- The function `sh` (pgmgr.go, lines 139-148): run the command, print its
combined output whatever the outcome, return the exit error. -/
def sh (env : Env) (command : String) (args : List String) (st : Shell) :
    Option Error × Shell :=
  let c : Call := { command := command, args := args }
  let r := env.exec st.calls c
  let st1 : Shell := { calls := st.calls ++ [c], stdout := st.stdout ++ [r.1] }
  match r.2 with
  | some err => (some err, st1)
  | none => (none, st1)

/-! ## Create, Drop, Dump, Load -/

/-- The function `Create` (pgmgr.go, lines 26-28). -/
def Create (env : Env) (c : Config) (st : Shell) : Option Error × Shell :=
  sh env "createdb" [c.Database] st

/-- The function `Drop` (pgmgr.go, lines 30-32). -/
def Drop (env : Env) (c : Config) (st : Shell) : Option Error × Shell :=
  sh env "dropdb" [c.Database] st

/-- The function `Dump` (pgmgr.go, lines 34-36). -/
def Dump (env : Env) (c : Config) (st : Shell) : Option Error × Shell :=
  sh env "pg_dump" ["-f", c.DumpFile, c.Database] st

/-- The function `Load` (pgmgr.go, lines 38-40). -/
def Load (env : Env) (c : Config) (st : Shell) : Option Error × Shell :=
  sh env "psql" ["-d", c.Database, "-f", c.DumpFile] st

/-! ## The connection string -/

/-- The function `sqlConnectionString` (pgmgr.go, lines 114-121).  Every
operand of `fmt.Sprint` is a string, so no blank is inserted between two of
them and the result is their concatenation in order. -/
def sqlConnectionString (c : Config) : String :=
  String.join
    [" user='", c.Username, "'",
     " dbname='", c.Database, "'",
     " password='", c.Password, "'",
     " host='", c.Host, "'",
     " sslmode=", "disable"]

/-! ## Discovery of migration files -/

/-- One element of a regular expression of the shape the package uses: a
single character of a class, or the class repeated once or more (`+`). -/
inductive Item where
  | one (p : Char → Bool)
  | many1 (p : Char → Bool)

/-- A regular expression: whether it starts with `^`, its elements in order,
whether it ends with `$`. -/
structure Regex where
  bol : Bool
  items : List Item
  eol : Bool

/-- The class `[0-9]`. -/
def digit (ch : Char) : Bool := ch.isDigit

/-- The class `.`: any character but the line feed (no `s` flag is set). -/
def anyChar (ch : Char) : Bool := ch != '\n'

/-- The class of a literal character. -/
def lit (a : Char) (ch : Char) : Bool := ch == a

/-- Whether the elements match the text from its first character on; with
`eol` the match has to use the whole text. -/
def matchHere (eol : Bool) : List Item → List Char → Bool
  | [], s => !eol || s.isEmpty
  | _ :: _, [] => false
  | Item.one p :: r, ch :: cs => p ch && matchHere eol r cs
  | Item.many1 p :: r, ch :: cs =>
      p ch && (matchHere eol r cs || matchHere eol (Item.many1 p :: r) cs)

/-- Whether the elements match the text from some position on. -/
def matchFrom (eol : Bool) (items : List Item) : List Char → Bool
  | [] => matchHere eol items []
  | ch :: cs => matchHere eol items (ch :: cs) || matchFrom eol items cs

/-- The library call `regexp.MatchString`, applied to a compiled expression:
whether the text contains any match of the expression. -/
def MatchString (re : Regex) (s : String) : Bool :=
  if re.bol then matchHere re.eol re.items s.data else matchFrom re.eol re.items s.data

/-- The expression `"[0-9]+_.+." + direction + ".sql"` of `migrationFiles`
(pgmgr.go, line 131), compiled.  It has no `^` and no `$`, and each of its
three dots is the class `.`.  The characters of `direction` stand for
themselves, which is what they do in `"up"` and `"down"`, the two directions
the package passes. -/
def migrationPattern (direction : String) : Regex :=
  { bol := false
    items :=
      [Item.many1 digit, Item.one (lit '_'), Item.many1 anyChar, Item.one anyChar]
        ++ direction.data.map (fun a => Item.one (lit a))
        ++ [Item.one anyChar, Item.one (lit 's'), Item.one (lit 'q'), Item.one (lit 'l')]
    eol := false }

/-- The loop of `migrationFiles` (pgmgr.go, lines 130-134): append every name
that matches, in listing order. -/
def collect (direction : String) : List String → List String → List String
  | [], migrations => migrations
  | name :: rest, migrations =>
      if MatchString (migrationPattern direction) name then
        collect direction rest (migrations ++ [name])
      else
        collect direction rest migrations

/-- The function `migrationFiles` (pgmgr.go, lines 123-137). -/
def migrationFiles (env : Env) (c : Config) (direction : String) :
    List String × Option Error :=
  match env.ReadDir c.MigrationFolder with
  | Except.error err => ([], some err)
  | Except.ok files => (collect direction files [], none)

/-- The pattern of the specification, `^[0-9]+_.+\.<direction>\.sql$`: the
whole name is digits, an underscore, a non-empty name, a literal dot, the
direction, a literal dot and `sql`. -/
def specPattern (direction : String) : Regex :=
  { bol := true
    items :=
      [Item.many1 digit, Item.one (lit '_'), Item.many1 anyChar, Item.one (lit '.')]
        ++ direction.data.map (fun a => Item.one (lit a))
        ++ [Item.one (lit '.'), Item.one (lit 's'), Item.one (lit 'q'), Item.one (lit 'l')]
    eol := true }

/-! ## Migrate and Rollback -/

/-- How a Go call ends: it returns a value, or it panics. -/
inductive Outcome (α : Type) where
  | returned (a : α)
  | panicked (msg : String)
  deriving DecidableEq, Repr

/-- The command `psql -d <Database> -f <MigrationFolder joined with file>`
built at lines 49 and 67 of pgmgr.go. -/
def psqlArgs (env : Env) (c : Config) (file : String) : List String :=
  ["-d", c.Database, "-f", env.Join c.MigrationFolder file]

/-- The loop of `Migrate` (pgmgr.go, lines 48-55): run the files in order,
return at the first error. -/
def migrateLoop (env : Env) (c : Config) : List String → Shell → Option Error × Shell
  | [], st => (none, st)
  | file :: rest, st =>
      match sh env "psql" (psqlArgs env c file) st with
      | (some err, st1) => (some err, st1)
      | (none, st1) => migrateLoop env c rest st1

/-- The function `Migrate` (pgmgr.go, lines 42-56). -/
def Migrate (env : Env) (c : Config) (st : Shell) : Option Error × Shell :=
  match migrationFiles env c "up" with
  | (_, some err) => (some err, st)
  | (files, none) => migrateLoop env c files st

/-- The index expression `xs[i]` on a slice: the element at `i`, or a panic
when `i` is negative or not below the length. -/
def index (xs : List String) (i : Int) : Outcome String :=
  if i < 0 then
    Outcome.panicked "runtime error: index out of range"
  else
    match xs[i.toNat]? with
    | none => Outcome.panicked "runtime error: index out of range"
    | some x => Outcome.returned x

/-- The function `Rollback` (pgmgr.go, lines 58-73).  Nothing stands between
the discovery and the index expression `files[len(files) - 1]`. -/
def Rollback (env : Env) (c : Config) (st : Shell) : Outcome (Option Error) × Shell :=
  match migrationFiles env c "down" with
  | (_, some err) => (Outcome.returned (some err), st)
  | (files, none) =>
      match index files ((files.length : Int) - 1) with
      | Outcome.panicked msg => (Outcome.panicked msg, st)
      | Outcome.returned to_rollback =>
          match sh env "psql" (psqlArgs env c to_rollback) st with
          | (some err, st1) => (Outcome.returned (some err), st1)
          | (none, st1) => (Outcome.returned none, st1)

/-! ## The version table -/

/-- A value of a result column. -/
inductive Value where
  | null
  | bool (b : Bool)
  | int (n : Int)
  deriving DecidableEq, Repr

/-- The state of the server seen through an opened connection: the rows of
the table `schema_migrations` (`none` when the table does not exist), and
whether the role may read the table and may create tables. -/
structure Database where
  schema_migrations : Option (List Int)
  canSelect : Bool
  canCreate : Bool
  deriving DecidableEq, Repr

/-- What a statement yields: the error of the server, or the result rows. -/
abbrev Rows := Except Error (List (List Value))

/-- The error `sql.ErrNoRows` of `database/sql`. -/
def ErrNoRows : Error := "sql: no rows in result set"

/-- The statement of `Version` that probes the catalog (pgmgr.go, line 83). -/
def hasTableQuery : String :=
  "SELECT true FROM pg_catalog.pg_tables WHERE tablename='schema_migrations'"

/-- The statement of `Version` that reads the version (pgmgr.go, line 90). -/
def maxVersionQuery : String := "SELECT MAX(version) FROM schema_migrations"

/-- The statement of `Initialize` (pgmgr.go, line 101). -/
def createTableQuery : String := "CREATE TABLE schema_migrations (version INTEGER NOT NULL)"

/-- The greatest element of a list of versions, `none` for the empty list:
what the aggregate `MAX` computes (`NULL` over no row). -/
def maxVersion : List Int → Option Int
  | [] => none
  | v :: vs =>
      match maxVersion vs with
      | none => some v
      | some m => some (if m ≤ v then v else m)

/-- The call `db.QueryRow(query)` for the three statements of the package:
the rows the server answers and the state it is left in.
* the catalog probe yields one row `true` when the table exists and no row
  otherwise;
* `MAX(version)` is an error when the table does not exist or may not be
  read, and otherwise one row, `NULL` over an empty table;
* `CREATE TABLE` is an error when tables may not be created or the table
  exists, and otherwise creates the empty table and yields no row. -/
def QueryRow (db : Database) (query : String) : Rows × Database :=
  if query = hasTableQuery then
    match db.schema_migrations with
    | none => (Except.ok [], db)
    | some _ => (Except.ok [[Value.bool true]], db)
  else if query = maxVersionQuery then
    match db.schema_migrations with
    | none => (Except.error "pq: relation schema_migrations does not exist", db)
    | some rows =>
        if db.canSelect then
          match maxVersion rows with
          | none => (Except.ok [[Value.null]], db)
          | some m => (Except.ok [[Value.int m]], db)
        else
          (Except.error "pq: permission denied for relation schema_migrations", db)
  else if query = createTableQuery then
    if db.canCreate then
      match db.schema_migrations with
      | some _ => (Except.error "pq: relation schema_migrations already exists", db)
      | none => (Except.ok [], { db with schema_migrations := some [] })
    else
      (Except.error "pq: permission denied for schema public", db)
  else
    (Except.error "pq: statement not modelled", db)

/-- The first row that `Row.Scan` reads: the deferred error of the statement,
`sql.ErrNoRows` when the statement yields no row, the first row otherwise. -/
def firstRow : Rows → Except Error (List Value)
  | Except.error err => Except.error err
  | Except.ok [] => Except.error ErrNoRows
  | Except.ok (row :: _) => Except.ok row

/-- The call `Row.Scan(&dest)` with `dest` a `bool`: the new value of `dest`
and the error.  On an error `dest` keeps its value. -/
def scanBool (r : Rows) (dest : Bool) : Bool × Option Error :=
  match firstRow r with
  | Except.error err => (dest, some err)
  | Except.ok [Value.bool b] => (b, none)
  | Except.ok [Value.int _] => (dest, some "sql: Scan error on column index 0")
  | Except.ok [Value.null] => (dest, some "sql: Scan error on column index 0")
  | Except.ok _ => (dest, some "sql: expected a different number of destination arguments")

/-- The call `Row.Scan(&dest)` with `dest` an `int`: the new value of `dest`
and the error.  On an error, such as the conversion of `NULL`, `dest` keeps its
value. -/
def scanInt (r : Rows) (dest : Int) : Int × Option Error :=
  match firstRow r with
  | Except.error err => (dest, some err)
  | Except.ok [Value.int n] => (n, none)
  | Except.ok [Value.bool _] => (dest, some "sql: Scan error on column index 0")
  | Except.ok [Value.null] => (dest, some "sql: Scan error on column index 0")
  | Except.ok _ => (dest, some "sql: expected a different number of destination arguments")

/-- The call `Row.Scan()` with no destination. -/
def scanNothing (r : Rows) : Option Error :=
  match firstRow r with
  | Except.error err => some err
  | Except.ok [] => none
  | Except.ok _ => some "sql: expected a different number of destination arguments"

/-- The function `openConnection` (pgmgr.go, lines 109-112): the error of
`sql.Open`; the handle it returns with no error is the connection to the
server. -/
def openConnection (env : Env) (c : Config) : Option Error :=
  env.Open (sqlConnectionString c)

/-- The function `Version` (pgmgr.go, lines 75-93).  The error of the first
`Scan` is assigned and never read; the error of the second is dropped. -/
def Version (env : Env) (c : Config) (db : Database) : Int × Option Error :=
  match openConnection env c with
  | some err => (-1, some err)
  | none =>
      let hasTable := (scanBool (QueryRow db hasTableQuery).1 false).1
      if hasTable == false then
        (0, none)
      else
        let version := (scanInt (QueryRow db maxVersionQuery).1 0).1
        (version, none)

/-- The function `Initialize` (pgmgr.go, lines 95-107): the returned error and
the state the server is left in. -/
def Initialize (env : Env) (c : Config) (db : Database) : Option Error × Database :=
  match openConnection env c with
  | some err => (some err, db)
  | none =>
      let r := QueryRow db createTableQuery
      match scanNothing r.1 with
      | some err => (some err, r.2)
      | none => (none, r.2)

/-! ## Vocabulary of the statements -/

/-- The command `psql -d <Database> -f <MigrationFolder joined with file>`. -/
def migrationCommand (env : Env) (c : Config) (file : String) : Call :=
  { command := "psql", args := ["-d", c.Database, "-f", env.Join c.MigrationFolder file] }

/-- An element accepts at least what another one accepts. -/
def Item.weaker : Item → Item → Prop
  | Item.one p, Item.one q => ∀ ch, p ch = true → q ch = true
  | Item.many1 p, Item.many1 q => ∀ ch, p ch = true → q ch = true
  | _, _ => False

/-! ## Sample inputs -/

/-- The configuration `{Username:"u", Database:"d", Password:"p", Host:"h"}`,
every other field at its zero value. -/
def sampleConfig : Config :=
  { Username := "u", Password := "p", Database := "d", Host := "h", Port := 0,
    DumpFile := "", MigrationFolder := "" }

/-- A configuration with every field set. -/
def fullConfig : Config :=
  { Username := "u", Password := "p", Database := "d", Host := "h", Port := 5432,
    DumpFile := "dump.sql", MigrationFolder := "migrations" }

/-- An operating system whose migration folder lists `listing`, whose
subprocesses fail on the commands `failing` and succeed on the others, and
where `sql.Open` succeeds. -/
def listingEnv (listing : List String) (failing : List Call) : Env :=
  { ReadDir := fun _ => Except.ok listing
    Join := fun dir file => dir ++ "/" ++ file
    exec := fun _ call => if call ∈ failing then ("", some "exit status 1") else ("", none)
    Open := fun _ => none }

/-- An operating system whose migration folder cannot be listed. -/
def unreadableEnv : Env :=
  { ReadDir := fun _ => Except.error "open migrations: no such file or directory"
    Join := fun dir file => dir ++ "/" ++ file
    exec := fun _ _ => ("", none)
    Open := fun _ => none }

/-- An operating system whose migration folder lists three "up" files and
where the command of the second one fails. -/
def secondFailsEnv : Env :=
  listingEnv ["001_init.up.sql", "002_add_col.up.sql", "003_drop_col.up.sql"]
    [{ command := "psql", args := ["-d", "d", "-f", "migrations/002_add_col.up.sql"] }]

/-- An operating system whose migration folder lists two "down" files. -/
def twoDownEnv : Env :=
  listingEnv ["001_init.down.sql", "002_add_col.down.sql"] []

/-- A server without the version table, on which every statement is allowed. -/
def freshDatabase : Database :=
  { schema_migrations := none, canSelect := true, canCreate := true }

/-- A server whose version table holds the rows 1, 2 and 5. -/
def versionedDatabase : Database :=
  { schema_migrations := some [1, 2, 5], canSelect := true, canCreate := true }

/-- The shell before any command has run. -/
def emptyShell : Shell := { calls := [], stdout := [] }

end Pgmgr

/-! # Theorems -/

namespace Pgmgr

/-! ## Helper lemmas -/

/-- The runner appends exactly its own command to the record of invoked
commands, prints the output and hands back the exit error. -/
theorem sh_eq (env : Env) (command : String) (args : List String) (st : Shell) :
    sh env command args st =
      ((env.exec st.calls { command := command, args := args }).2,
        { calls := st.calls ++ [{ command := command, args := args }],
          stdout := st.stdout ++ [(env.exec st.calls { command := command, args := args }).1] }) := by
  unfold sh
  cases h : (env.exec st.calls { command := command, args := args }).2 <;> simp [h]

/-- The loop of `migrationFiles` appends the matching names, in order. -/
theorem collect_eq (direction : String) (files migrations : List String) :
    collect direction files migrations =
      migrations ++ files.filter (MatchString (migrationPattern direction)) := by
  induction files generalizing migrations with
  | nil => simp [collect]
  | cons name rest ih =>
      unfold collect
      by_cases h : MatchString (migrationPattern direction) name = true
      · simp [h, ih]
      · simp [h, ih]

/-- On a folder that can be listed, discovery keeps the matching names. -/
theorem migrationFiles_ok (env : Env) (c : Config) (direction : String)
    (listing : List String) (h : env.ReadDir c.MigrationFolder = Except.ok listing) :
    migrationFiles env c direction =
      (listing.filter (MatchString (migrationPattern direction)), none) := by
  simp [migrationFiles, h, collect_eq]

/-! ## The connection string -/

/-- C6: for every configuration the connection string is exactly
`" user='" ++ Username ++ "' dbname='" ++ Database ++ "' password='" ++ Password
++ "' host='" ++ Host ++ "' sslmode=disable"`; it therefore contains each of
the four values between single quotes and the text `sslmode=disable`; a change
of `Port`, `DumpFile` or `MigrationFolder` leaves it unchanged; and the
configuration `{Username:"u", Database:"d", Password:"p", Host:"h"}` gives
`" user='u' dbname='d' password='p' host='h' sslmode=disable"`. -/
theorem sqlConnectionString_spec (c : Config) :
    sqlConnectionString c =
        " user='" ++ c.Username ++ "' dbname='" ++ c.Database ++ "' password='" ++ c.Password
          ++ "' host='" ++ c.Host ++ "' sslmode=disable"
      ∧ List.IsInfix ("user='" ++ c.Username ++ "'").data (sqlConnectionString c).data
      ∧ List.IsInfix ("dbname='" ++ c.Database ++ "'").data (sqlConnectionString c).data
      ∧ List.IsInfix ("password='" ++ c.Password ++ "'").data (sqlConnectionString c).data
      ∧ List.IsInfix ("host='" ++ c.Host ++ "'").data (sqlConnectionString c).data
      ∧ List.IsInfix "sslmode=disable".data (sqlConnectionString c).data
      ∧ (∀ (port : Int) (dump folder : String),
          sqlConnectionString { c with Port := port, DumpFile := dump, MigrationFolder := folder }
            = sqlConnectionString c)
      ∧ sqlConnectionString sampleConfig
          = " user='u' dbname='d' password='p' host='h' sslmode=disable" := by
  refine ⟨?_, ?_, ?_, ?_, ?_, ?_, ?_, ?_⟩
  · simp [sqlConnectionString, String.join, String.ext_iff, String.data_append]
  · refine ⟨" ".data, (" dbname='" ++ c.Database ++ "' password='" ++ c.Password
      ++ "' host='" ++ c.Host ++ "' sslmode=disable").data, ?_⟩
    simp [sqlConnectionString, String.join, String.data_append]
  · refine ⟨(" user='" ++ c.Username ++ "' ").data, (" password='" ++ c.Password
      ++ "' host='" ++ c.Host ++ "' sslmode=disable").data, ?_⟩
    simp [sqlConnectionString, String.join, String.data_append]
  · refine ⟨(" user='" ++ c.Username ++ "' dbname='" ++ c.Database ++ "' ").data,
      (" host='" ++ c.Host ++ "' sslmode=disable").data, ?_⟩
    simp [sqlConnectionString, String.join, String.data_append]
  · refine ⟨(" user='" ++ c.Username ++ "' dbname='" ++ c.Database ++ "' password='"
      ++ c.Password ++ "' ").data, " sslmode=disable".data, ?_⟩
    simp [sqlConnectionString, String.join, String.data_append]
  · refine ⟨(" user='" ++ c.Username ++ "' dbname='" ++ c.Database ++ "' password='"
      ++ c.Password ++ "' host='" ++ c.Host ++ "' ").data, [], ?_⟩
    simp [sqlConnectionString, String.join, String.data_append]
  · intro port dump folder
    rfl
  · decide

/-! ## Create, Drop, Dump, Load -/

/-- C9: `Create`, `Drop`, `Dump` and `Load` each invoke the process runner
exactly once (the record of invoked commands grows by exactly one command) and
return its exit error unchanged, the command being `createdb [Database]`,
`dropdb [Database]`, `pg_dump ["-f", DumpFile, Database]` and
`psql ["-d", Database, "-f", DumpFile]`; and none of them reads another field:
any configuration with the same `Database` (and, for `Dump` and `Load`, the
same `DumpFile`) gives the same result. -/
theorem wrappers_invoke_runner_once (env : Env) (c : Config) (st : Shell) :
    ((Create env c st).1 = (env.exec st.calls ⟨"createdb", [c.Database]⟩).2
        ∧ (Create env c st).2.calls = st.calls ++ [⟨"createdb", [c.Database]⟩])
      ∧ ((Drop env c st).1 = (env.exec st.calls ⟨"dropdb", [c.Database]⟩).2
        ∧ (Drop env c st).2.calls = st.calls ++ [⟨"dropdb", [c.Database]⟩])
      ∧ ((Dump env c st).1 = (env.exec st.calls ⟨"pg_dump", ["-f", c.DumpFile, c.Database]⟩).2
        ∧ (Dump env c st).2.calls
            = st.calls ++ [⟨"pg_dump", ["-f", c.DumpFile, c.Database]⟩])
      ∧ ((Load env c st).1
            = (env.exec st.calls ⟨"psql", ["-d", c.Database, "-f", c.DumpFile]⟩).2
        ∧ (Load env c st).2.calls
            = st.calls ++ [⟨"psql", ["-d", c.Database, "-f", c.DumpFile]⟩])
      ∧ (∀ c2 : Config,
          Create env { c2 with Database := c.Database } st = Create env c st
            ∧ Drop env { c2 with Database := c.Database } st = Drop env c st
            ∧ Dump env { c2 with Database := c.Database, DumpFile := c.DumpFile } st
                = Dump env c st
            ∧ Load env { c2 with Database := c.Database, DumpFile := c.DumpFile } st
                = Load env c st) := by
  refine ⟨?_, ?_, ?_, ?_, ?_⟩
  · simp [Create, sh_eq]
  · simp [Drop, sh_eq]
  · simp [Dump, sh_eq]
  · simp [Load, sh_eq]
  · intro c2
    exact ⟨rfl, rfl, rfl, rfl⟩

/-! ## Discovery -/

/-- On a folder that can be listed, for every direction, `migrationFiles`
returns no error and a subsequence of the listing (only names of the listing,
none added or duplicated, in the order of the listing); an empty listing, or a
listing none of whose names the expression of the code accepts, gives the
empty sequence. -/
theorem migrationFiles_sublist (env : Env) (c : Config) (direction : String)
    (listing : List String) (h : env.ReadDir c.MigrationFolder = Except.ok listing) :
    (migrationFiles env c direction).2 = none
      ∧ List.Sublist (migrationFiles env c direction).1 listing
      ∧ (listing = [] → (migrationFiles env c direction).1 = [])
      ∧ ((∀ name ∈ listing, MatchString (migrationPattern direction) name = false) →
          (migrationFiles env c direction).1 = []) := by
  rw [migrationFiles_ok env c direction listing h]
  refine ⟨rfl, List.filter_sublist listing, ?_, ?_⟩
  · intro hl
    simp [hl]
  · intro hall
    simp only [List.filter_eq_nil_iff]
    intro name hname
    simp [hall name hname]

/-- The subsequence property at a concrete input: the listing of three files,
direction `"down"`. -/
theorem migrationFiles_sublist_witness :
    (listingEnv ["001_init.up.sql", "002_add_col.up.sql", "001_init.down.sql"] []).ReadDir
        fullConfig.MigrationFolder
        = Except.ok ["001_init.up.sql", "002_add_col.up.sql", "001_init.down.sql"]
      ∧ List.Sublist
          (migrationFiles
            (listingEnv ["001_init.up.sql", "002_add_col.up.sql", "001_init.down.sql"] [])
            fullConfig "down").1
          ["001_init.up.sql", "002_add_col.up.sql", "001_init.down.sql"] :=
  ⟨rfl,
    (migrationFiles_sublist
      (listingEnv ["001_init.up.sql", "002_add_col.up.sql", "001_init.down.sql"] [])
      fullConfig "down" ["001_init.up.sql", "002_add_col.up.sql", "001_init.down.sql"] rfl).2.1⟩

/-- C8: when the migration folder cannot be listed, `migrationFiles` returns
the empty sequence with the listing error, and `Migrate` and `Rollback` return
that same error and leave the shell as it was: no command is invoked. -/
theorem unreadable_folder (env : Env) (c : Config) (st : Shell) (err : Error)
    (h : env.ReadDir c.MigrationFolder = Except.error err) :
    (∀ direction : String, migrationFiles env c direction = ([], some err))
      ∧ Migrate env c st = (some err, st)
      ∧ Rollback env c st = (Outcome.returned (some err), st) := by
  have hm : ∀ direction : String, migrationFiles env c direction = ([], some err) := by
    intro direction
    simp [migrationFiles, h]
  refine ⟨hm, ?_, ?_⟩
  · simp [Migrate, hm]
  · simp [Rollback, hm]

/-- C8, at a concrete input: a folder that does not exist. -/
theorem unreadable_folder_witness :
    unreadableEnv.ReadDir fullConfig.MigrationFolder
        = Except.error "open migrations: no such file or directory"
      ∧ Migrate unreadableEnv fullConfig emptyShell
        = (some "open migrations: no such file or directory", emptyShell)
      ∧ Rollback unreadableEnv fullConfig emptyShell
        = (Outcome.returned (some "open migrations: no such file or directory"), emptyShell) :=
  ⟨rfl, (unreadable_folder unreadableEnv fullConfig emptyShell _ rfl).2⟩

/-! ## Migrate -/

/-- The loop of `Migrate` runs the commands of the files in order up to and
including the first one that fails. -/
theorem migrateLoop_spec (env : Env) (c : Config) (files : List String) (st : Shell) :
    ((∀ i f, files[i]? = some f →
          (env.exec (st.calls ++ (files.take i).map (migrationCommand env c))
            (migrationCommand env c f)).2 = none)
        ∧ (migrateLoop env c files st).1 = none
        ∧ (migrateLoop env c files st).2.calls
            = st.calls ++ files.map (migrationCommand env c))
      ∨ (∃ k f err, files[k]? = some f
          ∧ (∀ i g, i < k → files[i]? = some g →
              (env.exec (st.calls ++ (files.take i).map (migrationCommand env c))
                (migrationCommand env c g)).2 = none)
          ∧ (env.exec (st.calls ++ (files.take k).map (migrationCommand env c))
              (migrationCommand env c f)).2 = some err
          ∧ (migrateLoop env c files st).1 = some err
          ∧ (migrateLoop env c files st).2.calls
              = st.calls ++ (files.take (k + 1)).map (migrationCommand env c)) := by
  induction files generalizing st with
  | nil =>
      left
      simp [migrateLoop]
  | cons file rest ih =>
      have hcall : ({ command := "psql", args := psqlArgs env c file } : Call)
          = migrationCommand env c file := rfl
      unfold migrateLoop
      rw [sh_eq, hcall]
      cases hfirst : (env.exec st.calls (migrationCommand env c file)).2 with
      | some err =>
          right
          refine ⟨0, file, err, by simp, ?_, by simpa using hfirst, by simp, by simp⟩
          intro i g hi
          omega
      | none =>
          simp only []
          rcases ih { calls := st.calls ++ [migrationCommand env c file],
                      stdout := st.stdout ++
                        [(env.exec st.calls (migrationCommand env c file)).1] } with
            ⟨hall, hres, hcalls⟩ | ⟨k, f, err, hk, hbefore, hfail, hres, hcalls⟩
          · left
            refine ⟨?_, hres, by simpa using hcalls⟩
            intro i g hg
            cases i with
            | zero =>
                simp at hg
                subst hg
                simpa using hfirst
            | succ j =>
                simp at hg
                simpa using hall j g hg
          · right
            refine ⟨k + 1, f, err, by simpa using hk, ?_, by simpa using hfail, hres,
              by simpa using hcalls⟩
            intro i g hi hg
            cases i with
            | zero =>
                simp at hg
                subst hg
                simpa using hfirst
            | succ j =>
                simp at hg
                simpa using hbefore j g (by omega) hg

/-- C1: with `files` the discovered "up" files, `Migrate` invokes exactly the
commands `psql -d <Database> -f <MigrationFolder joined with file>` of the
files in discovery order up to and including the first one whose command
fails, and returns that error; when no command fails it invokes the command of
every file and returns `nil`.  No command is invoked for a file after the
first failing one. -/
theorem Migrate_halts_at_first_failure (env : Env) (c : Config) (st : Shell)
    (files : List String) (hd : migrationFiles env c "up" = (files, none)) :
    ((∀ i f, files[i]? = some f →
          (env.exec (st.calls ++ (files.take i).map (migrationCommand env c))
            (migrationCommand env c f)).2 = none)
        ∧ (Migrate env c st).1 = none
        ∧ (Migrate env c st).2.calls = st.calls ++ files.map (migrationCommand env c))
      ∨ (∃ k f err, files[k]? = some f
          ∧ (∀ i g, i < k → files[i]? = some g →
              (env.exec (st.calls ++ (files.take i).map (migrationCommand env c))
                (migrationCommand env c g)).2 = none)
          ∧ (env.exec (st.calls ++ (files.take k).map (migrationCommand env c))
              (migrationCommand env c f)).2 = some err
          ∧ (Migrate env c st).1 = some err
          ∧ (Migrate env c st).2.calls
              = st.calls ++ (files.take (k + 1)).map (migrationCommand env c)) := by
  have hM : Migrate env c st = migrateLoop env c files st := by
    simp [Migrate, hd]
  rw [hM]
  exact migrateLoop_spec env c files st

/-- Three "up" files of which the second fails: the commands of the first two
files are invoked, the third is not, and the error is the one of the second. -/
theorem Migrate_second_of_three_fails :
    Migrate secondFailsEnv fullConfig emptyShell
      = (some "exit status 1",
          { calls :=
              [{ command := "psql",
                 args := ["-d", "d", "-f", "migrations/001_init.up.sql"] },
               { command := "psql",
                 args := ["-d", "d", "-f", "migrations/002_add_col.up.sql"] }],
            stdout := ["", ""] }) := by
  decide

/-- C1, at a concrete input: three "up" files, the command of the second one
fails, so the second alternative of the theorem holds. -/
theorem Migrate_halts_at_first_failure_witness :
    migrationFiles secondFailsEnv fullConfig "up"
        = (["001_init.up.sql", "002_add_col.up.sql", "003_drop_col.up.sql"], none)
      ∧ (∃ k f err,
          ["001_init.up.sql", "002_add_col.up.sql", "003_drop_col.up.sql"][k]? = some f
          ∧ (∀ i g, i < k →
              ["001_init.up.sql", "002_add_col.up.sql", "003_drop_col.up.sql"][i]? = some g →
              (secondFailsEnv.exec
                (emptyShell.calls ++
                  (["001_init.up.sql", "002_add_col.up.sql", "003_drop_col.up.sql"].take i).map
                    (migrationCommand secondFailsEnv fullConfig))
                (migrationCommand secondFailsEnv fullConfig g)).2 = none)
          ∧ (secondFailsEnv.exec
              (emptyShell.calls ++
                (["001_init.up.sql", "002_add_col.up.sql", "003_drop_col.up.sql"].take k).map
                  (migrationCommand secondFailsEnv fullConfig))
              (migrationCommand secondFailsEnv fullConfig f)).2 = some err
          ∧ (Migrate secondFailsEnv fullConfig emptyShell).1 = some err
          ∧ (Migrate secondFailsEnv fullConfig emptyShell).2.calls
              = emptyShell.calls ++
                (["001_init.up.sql", "002_add_col.up.sql", "003_drop_col.up.sql"].take
                  (k + 1)).map (migrationCommand secondFailsEnv fullConfig)) :=
  ⟨by decide,
    (Migrate_halts_at_first_failure secondFailsEnv fullConfig emptyShell
      ["001_init.up.sql", "002_add_col.up.sql", "003_drop_col.up.sql"]
      (by decide)).resolve_left (fun h => absurd h.2.1 (by decide))⟩

/-! ## Rollback -/

/-- C3: when the discovered "down" list is not empty, `Rollback` invokes
exactly one command, `psql -d <Database> -f <MigrationFolder joined with the
last discovered file>`, and returns the exit error of that command (`nil` when
it succeeds). -/
theorem Rollback_runs_last_file (env : Env) (c : Config) (st : Shell)
    (files : List String) (hd : migrationFiles env c "down" = (files, none))
    (hne : files ≠ []) :
    (Rollback env c st).1
        = Outcome.returned
            (env.exec st.calls
              { command := "psql",
                args := ["-d", c.Database, "-f",
                  env.Join c.MigrationFolder (files.getLast hne)] }).2
      ∧ (Rollback env c st).2.calls
        = st.calls ++
            [{ command := "psql",
               args := ["-d", c.Database, "-f",
                 env.Join c.MigrationFolder (files.getLast hne)] }] := by
  have hlast : index files ((files.length : Int) - 1)
      = Outcome.returned (files.getLast hne) := by
    have hpos : 0 < files.length := List.length_pos.mpr hne
    have hnat : ((files.length : Int) - 1).toNat = files.length - 1 := by omega
    have hget : files[files.length - 1]? = some (files.getLast hne) := by
      rw [← List.getLast?_eq_getElem?, List.getLast?_eq_getLast files hne]
    have hnonneg : ¬ ((files.length : Int) - 1 < 0) := by omega
    simp only [index, hnonneg, if_false, hnat, hget]
  unfold Rollback
  rw [hd]
  simp only [hlast, sh_eq, psqlArgs]
  cases (env.exec st.calls
      { command := "psql",
        args := ["-d", c.Database, "-f",
          env.Join c.MigrationFolder (files.getLast hne)] }).2 <;> simp

/-- C3, at a concrete input: two "down" files. -/
theorem Rollback_runs_last_file_witness :
    migrationFiles twoDownEnv fullConfig "down"
        = (["001_init.down.sql", "002_add_col.down.sql"], none)
      ∧ ["001_init.down.sql", "002_add_col.down.sql"] ≠ []
      ∧ (Rollback twoDownEnv fullConfig emptyShell).2.calls
        = [{ command := "psql",
             args := ["-d", "d", "-f", "migrations/002_add_col.down.sql"] }] :=
  ⟨by decide, by decide,
    (Rollback_runs_last_file twoDownEnv fullConfig emptyShell
      ["001_init.down.sql", "002_add_col.down.sql"] (by decide) (by decide)).2⟩

/-- When nothing is discovered, the index expression of `Rollback` panics. -/
theorem Rollback_panics_on_nothing (env : Env) (c : Config) (st : Shell)
    (hd : migrationFiles env c "down" = ([], none)) :
    Rollback env c st = (Outcome.panicked "runtime error: index out of range", st) := by
  simp [Rollback, hd, index]

/-- C10, evaluated where it fails: on a readable folder that is empty, and on
a readable folder in which no name matches the "down" pattern, `Rollback` does
not return: the index `len(files) - 1` is out of range and the call panics
without invoking any command. -/
theorem Rollback_panics_on_empty_discovery :
    migrationFiles (listingEnv [] []) fullConfig "down" = ([], none)
      ∧ Rollback (listingEnv [] []) fullConfig emptyShell
        = (Outcome.panicked "runtime error: index out of range", emptyShell)
      ∧ migrationFiles (listingEnv ["001_init.up.sql", "readme.md"] []) fullConfig "down"
        = ([], none)
      ∧ Rollback (listingEnv ["001_init.up.sql", "readme.md"] []) fullConfig emptyShell
        = (Outcome.panicked "runtime error: index out of range", emptyShell) := by
  refine ⟨by decide, by decide, by decide, by decide⟩

/-! ## Version -/

/-- The aggregate `MAX` over a non-empty table is a stored version that no
stored version exceeds. -/
theorem maxVersion_spec (rows : List Int) (hne : rows ≠ []) :
    ∃ m, maxVersion rows = some m ∧ m ∈ rows ∧ ∀ v ∈ rows, v ≤ m := by
  induction rows with
  | nil => exact absurd rfl hne
  | cons v vs ih =>
      cases vs with
      | nil =>
          refine ⟨v, by simp [maxVersion], by simp, ?_⟩
          intro w hw
          simp at hw
          omega
      | cons u us =>
          obtain ⟨m, hm, hmem, hmax⟩ := ih (by simp)
          by_cases hle : m ≤ v
          · refine ⟨v, ?_, by simp, ?_⟩
            · rw [maxVersion, hm]
              simp [hle]
            · intro w hw
              rcases List.mem_cons.mp hw with h | h
              · omega
              · have := hmax w h
                omega
          · refine ⟨m, ?_, List.mem_cons_of_mem v hmem, ?_⟩
            · rw [maxVersion, hm]
              simp [hle]
            · intro w hw
              rcases List.mem_cons.mp hw with h | h
              · omega
              · exact hmax w h

/-- C4: on a connection that opens, `Version` returns `(0, nil)` when the
table is absent; `(0, nil)` when the table is present but empty or the `MAX`
statement fails; and `(m, nil)` with `m` the greatest stored version when the
table is present, not empty and the `MAX` statement is answered (the rows
1, 2, 5 give 5).  It returns an error only when the connection cannot be
opened. -/
theorem Version_spec (env : Env) (c : Config) (db : Database) :
    (openConnection env c = none →
        (db.schema_migrations = none → Version env c db = (0, none))
        ∧ (∀ rows, db.schema_migrations = some rows →
            (rows = [] ∨ (QueryRow db maxVersionQuery).1.toBool = false) →
            Version env c db = (0, none))
        ∧ (∀ rows, db.schema_migrations = some rows → rows ≠ [] →
            (QueryRow db maxVersionQuery).1.toBool = true →
            ∃ m, m ∈ rows ∧ (∀ v ∈ rows, v ≤ m) ∧ Version env c db = (m, none))
        ∧ (db.schema_migrations = some [1, 2, 5] →
            (QueryRow db maxVersionQuery).1.toBool = true →
            Version env c db = (5, none)))
      ∧ ((Version env c db).2 ≠ none → openConnection env c ≠ none) := by
  have hq : maxVersionQuery ≠ hasTableQuery := by decide
  refine ⟨?_, ?_⟩
  · intro hopen
    refine ⟨?_, ?_, ?_, ?_⟩
    · intro habsent
      simp [Version, hopen, QueryRow, habsent, scanBool, firstRow, ErrNoRows]
    · intro rows hrows hcase
      rcases hcase with hempty | herr
      · subst hempty
        by_cases hsel : db.canSelect = true <;>
          simp [Version, hopen, QueryRow, hq, hrows, hsel, scanBool, scanInt, firstRow,
            maxVersion]
      · by_cases hsel : db.canSelect = true
        · exfalso
          cases hmax : maxVersion rows <;>
            simp [QueryRow, hq, hrows, hsel, hmax, Except.toBool] at herr
        · simp [Version, hopen, QueryRow, hq, hrows, hsel, scanBool, scanInt, firstRow]
    · intro rows hrows hne hanswered
      obtain ⟨m, hm, hmem, hmax⟩ := maxVersion_spec rows hne
      refine ⟨m, hmem, hmax, ?_⟩
      by_cases hsel : db.canSelect = true
      · simp [Version, hopen, QueryRow, hq, hrows, hsel, scanBool, scanInt, firstRow, hm]
      · exfalso
        simp [QueryRow, hq, hrows, hsel, Except.toBool] at hanswered
    · intro hrows hanswered
      by_cases hsel : db.canSelect = true
      · simp [Version, hopen, QueryRow, hq, hrows, hsel, scanBool, scanInt, firstRow,
          maxVersion]
      · exfalso
        simp [QueryRow, hq, hrows, hsel, Except.toBool] at hanswered
  · intro herr hopen
    apply herr
    unfold Version
    rw [hopen]
    simp only []
    split <;> rfl

/-- C4, at a concrete input: the version table holds the rows 1, 2 and 5. -/
theorem Version_spec_witness :
    openConnection (listingEnv [] []) fullConfig = none
      ∧ versionedDatabase.schema_migrations = some [1, 2, 5]
      ∧ (QueryRow versionedDatabase maxVersionQuery).1.toBool = true
      ∧ Version (listingEnv [] []) fullConfig versionedDatabase = (5, none) :=
  ⟨rfl, rfl, by decide,
    (Version_spec (listingEnv [] []) fullConfig versionedDatabase).1 rfl |>.2.2.2 rfl
      (by decide)⟩

/-! ## Initialize -/

/-- The first row of a statement that yields no row is `sql.ErrNoRows`, so a
`Scan` without destination never returns `nil` on it. -/
theorem scanNothing_no_rows : scanNothing (Except.ok []) = some ErrNoRows := rfl

/-- The function `Initialize` returns an error on every server: a statement
that fails returns its error, and a `CREATE TABLE` that succeeds yields no row,
which `Scan` reports as `sql.ErrNoRows`. -/
theorem Initialize_never_nil (env : Env) (c : Config) (db : Database) :
    (Initialize env c db).1 ≠ none := by
  have hq1 : createTableQuery ≠ hasTableQuery := by decide
  have hq2 : createTableQuery ≠ maxVersionQuery := by decide
  unfold Initialize
  cases hopen : openConnection env c with
  | some err => simp
  | none =>
      by_cases hcreate : db.canCreate = true <;> cases htable : db.schema_migrations <;>
        simp [QueryRow, hq1, hq2, hcreate, htable, scanNothing, firstRow]

/-- C5, evaluated where it fails: on a server without the version table and
with the right to create tables, the first `Initialize` creates the table and
still returns the error `sql.ErrNoRows`, not `nil`; the second call, on the
server the first one left, returns the error of the server. -/
theorem Initialize_returns_error_on_success :
    Initialize (listingEnv [] []) fullConfig freshDatabase
        = (some "sql: no rows in result set",
            { schema_migrations := some [], canSelect := true, canCreate := true })
      ∧ Initialize (listingEnv [] []) fullConfig
          (Initialize (listingEnv [] []) fullConfig freshDatabase).2
        = (some "pq: relation schema_migrations already exists",
            { schema_migrations := some [], canSelect := true, canCreate := true }) := by
  refine ⟨by decide, by decide⟩

/-! ## The pattern of discovery -/

/-- A match of weaker elements: what the elements match to the end of the
text or not, weaker elements match without the end condition. -/
theorem matchHere_weaker (eol : Bool) (s : List Char) :
    ∀ items items2 : List Item, List.Forall₂ Item.weaker items items2 →
      matchHere eol items s = true → matchHere false items2 s = true := by
  induction s with
  | nil =>
      intro items items2 hw hm
      cases hw with
      | nil => simp [matchHere]
      | cons h t => simp [matchHere] at hm
  | cons ch cs ih =>
      intro items items2 hw hm
      cases hw with
      | nil => simp [matchHere]
      | @cons a b r r2 h t =>
          cases a with
          | one p =>
              cases b with
              | one q =>
                  simp only [matchHere, Bool.and_eq_true] at hm ⊢
                  exact ⟨h ch hm.1, ih r r2 t hm.2⟩
              | many1 q => exact absurd h (by simp [Item.weaker])
          | many1 p =>
              cases b with
              | one q => exact absurd h (by simp [Item.weaker])
              | many1 q =>
                  simp only [matchHere, Bool.and_eq_true, Bool.or_eq_true] at hm ⊢
                  refine ⟨h ch hm.1, ?_⟩
                  rcases hm.2 with h1 | h2
                  · exact Or.inl (ih r r2 t h1)
                  · exact Or.inr (ih (Item.many1 p :: r) (Item.many1 q :: r2)
                      (List.Forall₂.cons h t) h2)

/-- A match at the first character is a match at some position. -/
theorem matchFrom_of_matchHere (eol : Bool) (items : List Item) (s : List Char)
    (h : matchHere eol items s = true) : matchFrom eol items s = true := by
  cases s with
  | nil => simpa [matchFrom] using h
  | cons ch cs => simp [matchFrom, h]

/-- Every name that the pattern of the specification accepts is accepted by
the pattern of `migrationFiles`: discovery misses no migration file. -/
theorem specPattern_le_migrationPattern (direction name : String)
    (h : MatchString (specPattern direction) name = true) :
    MatchString (migrationPattern direction) name = true := by
  have hw : List.Forall₂ Item.weaker (specPattern direction).items
      (migrationPattern direction).items := by
    have hdir : List.Forall₂ Item.weaker
        (direction.data.map (fun a => Item.one (lit a)))
        (direction.data.map (fun a => Item.one (lit a))) := by
      induction direction.data with
      | nil => exact List.Forall₂.nil
      | cons a as ih => exact List.Forall₂.cons (fun _ hch => hch) ih
    have hdot : ∀ ch, lit '.' ch = true → anyChar ch = true := by
      intro ch hch
      simp only [lit, beq_iff_eq] at hch
      subst hch
      decide
    simp only [specPattern, migrationPattern, List.cons_append, List.nil_append]
    refine List.Forall₂.cons (fun _ hch => hch) (List.Forall₂.cons (fun _ hch => hch)
      (List.Forall₂.cons (fun _ hch => hch) (List.Forall₂.cons hdot ?_)))
    refine List.rel_append hdir ?_
    exact List.Forall₂.cons hdot (List.Forall₂.cons (fun _ hch => hch)
      (List.Forall₂.cons (fun _ hch => hch) (List.Forall₂.cons (fun _ hch => hch)
        List.Forall₂.nil)))
  have hm : matchHere true (specPattern direction).items name.data = true := by
    simpa [MatchString, specPattern] using h
  have hcode := matchFrom_of_matchHere false _ _
    (matchHere_weaker true name.data _ _ hw hm)
  simpa [MatchString, migrationPattern] using hcode

/-- The listing `001_init.up.sql`, `002_add_col.up.sql`, `001_init.down.sql`
gives exactly the two `.up.sql` names for "up" and exactly the one `.down.sql`
name for "down". -/
theorem discovery_of_three_files :
    migrationFiles
        (listingEnv ["001_init.up.sql", "002_add_col.up.sql", "001_init.down.sql"] [])
        fullConfig "up"
        = (["001_init.up.sql", "002_add_col.up.sql"], none)
      ∧ migrationFiles
          (listingEnv ["001_init.up.sql", "002_add_col.up.sql", "001_init.down.sql"] [])
          fullConfig "down"
        = (["001_init.down.sql"], none) := by
  refine ⟨by decide, by decide⟩

/-- C2, evaluated where it fails: `migrationFiles` returns names that do not
match `^[0-9]+_.+\.up\.sql$` as a whole.  The expression of the code has no
anchor and its dots are not escaped, so it accepts a name with text before the
digits (`x1_a.up.sql`), with text after the suffix (`001_init.up.sql.bak`) and
with any character in place of a dot (`1_abXupXsql`). -/
theorem migrationFiles_accepts_more_than_spec :
    migrationFiles
        (listingEnv ["001_init.up.sql.bak", "x1_a.up.sql", "1_abXupXsql", "001_init.up.sql"] [])
        fullConfig "up"
        = (["001_init.up.sql.bak", "x1_a.up.sql", "1_abXupXsql", "001_init.up.sql"], none)
      ∧ MatchString (specPattern "up") "001_init.up.sql.bak" = false
      ∧ MatchString (specPattern "up") "x1_a.up.sql" = false
      ∧ MatchString (specPattern "up") "1_abXupXsql" = false
      ∧ MatchString (specPattern "up") "001_init.up.sql" = true := by
  refine ⟨by decide, by decide, by decide, by decide, by decide⟩

/-- C7, evaluated where it fails: the folder can be listed and holds the
single name `001_init.up.sql.bak`.  The pattern `^[0-9]+_.+\.up\.sql$`
rejects it, so no name of the listing matches; `migrationFiles` returns no
error, and its result is a subsequence of the listing, but it is not the empty
sequence: the unanchored expression of the code accepts the name. -/
theorem migrationFiles_not_empty_without_match :
    (listingEnv ["001_init.up.sql.bak"] []).ReadDir fullConfig.MigrationFolder
        = Except.ok ["001_init.up.sql.bak"]
      ∧ (∀ name ∈ ["001_init.up.sql.bak"], MatchString (specPattern "up") name = false)
      ∧ migrationFiles (listingEnv ["001_init.up.sql.bak"] []) fullConfig "up"
        = (["001_init.up.sql.bak"], none)
      ∧ (migrationFiles (listingEnv ["001_init.up.sql.bak"] []) fullConfig "up").1 ≠ [] := by
  refine ⟨rfl, by decide, by decide, by decide⟩

end Pgmgr
